import Mathlib

/-!
Verification of the Result Normalization & Reporting core of the
llm-friendly-qa-wrappers repository.

Each wrapper is a single pipeline run: invoke the tool, adapt its native
output, classify pass/fail, render a terse report and write an artifact.
We embed the wrappers cited by the claims as pure Lean functions over an
explicit model of their run-time inputs:

* the target list (`argv.slice(2)` / `array_slice($argv, 1)`),
* the child-process outcome (exit status, captured stdout/stderr), and
* the generated temporary-file name (the random/`tempnam` suffix is an
  environment input to the model).

Tool stdout is modelled at the document level: a run's stdout is either a
syntactically valid JSON document (carried as its denoted `Json` value) or
a non-JSON text.  Serialisation is modelled at the structure level: the
artifact field of a run result holds the structure the wrapper serialises
with `JSON.stringify` / `json_encode`; `JSON.parse`/`JSON.stringify` are
mutually inverse on documents, so equality of structures is equality of
deserialised artifacts.  PHP's `json_decode($s, true)` is modelled with its
two documented deviations: the JSON document `null` decodes to PHP `null`
(indistinguishable from a parse failure), and decoding to associative
arrays erases the distinction between an empty object and an empty array,
so a decode/encode round trip maps every empty object to `[]`.
-/

namespace QAW

/-- Model of a JSON document: the structure denoted by a valid JSON text.
Objects keep their fields in document order. -/
inductive Json where
  | null : Json
  | bool : Bool → Json
  | num : Int → Json
  | str : String → Json
  | arr : List Json → Json
  | obj : List (String × Json) → Json

/-- Field lookup in a JSON object; `none` on non-objects and missing keys. -/
def Json.lookupField : Json → String → Option Json
  | .obj fields, k => fields.lookup k
  | _, _ => none

/-- Result of one wrapper run: process exit status, the lines written to
stdout and stderr in order, and the structure serialised to the artifact
file (`none` when no artifact file is written).  `A` is the per-wrapper
artifact structure. -/
structure RunResult (A : Type) where
  exit : Nat
  stdout : List String
  stderr : List String
  artifact : Option A

/-! ## ESLint wrapper (`wrappers/nodejs/eslint/llm-eslint.js`)

ESLint is an external collaborator specified at its interface: with
`--format json` it prints a JSON array of per-file records carrying
`filePath`, `errorCount`, `warningCount` and a `messages` array; records
may carry further fields, which the wrapper does not read but retains in
the artifact.  We model a conformant stdout as the typed records below,
`extra` holding the unread native fields. -/

structure EslintMessage where
  line : Nat
  column : Nat
  severity : Nat
  ruleId : String
  message : String
  extra : List (String × Json)

structure EslintFile where
  filePath : String
  errorCount : Nat
  warningCount : Nat
  messages : List EslintMessage
  extra : List (String × Json)

def kLine : String := "line"
def kColumn : String := "column"
def kSeverity : String := "severity"
def kRuleId : String := "ruleId"
def kMessage : String := "message"
def kFilePath : String := "filePath"
def kErrorCount : String := "errorCount"
def kWarningCount : String := "warningCount"
def kMessages : String := "messages"

/-- The JSON structure denoted by a conformant ESLint message record. -/
def EslintMessage.toJson (m : EslintMessage) : Json :=
  .obj ([(kLine, .num m.line), (kColumn, .num m.column),
         (kSeverity, .num m.severity), (kRuleId, .str m.ruleId),
         (kMessage, .str m.message)] ++ m.extra)

/-- The JSON structure denoted by a conformant ESLint file record. -/
def EslintFile.toJson (f : EslintFile) : Json :=
  .obj ([(kFilePath, .str f.filePath), (kErrorCount, .num f.errorCount),
         (kWarningCount, .num f.warningCount),
         (kMessages, .arr (f.messages.map EslintMessage.toJson))] ++ f.extra)

/-- The JSON structure denoted by the tool's whole stdout document. -/
def eslintResultsJson (files : List EslintFile) : Json :=
  .arr (files.map EslintFile.toJson)

/-- Classification of the ESLint child's captured stdout text. -/
inductive EslintStdout where
  | conformant (files : List EslintFile)
  | malformed (raw : String)

/-- JavaScript truthiness of the captured stdout string, as tested by
`if (err.stdout)`: the empty string is falsy, every other text truthy
(a valid JSON document is never empty). -/
def EslintStdout.truthy : EslintStdout → Bool
  | .conformant _ => true
  | .malformed raw => !raw.isEmpty

/-- Outcome of `execFileSync`: normal return (child exit 0), a thrown
error carrying the captured stdout and the child's non-zero exit status,
or a thrown spawn error with no `stdout` property (missing binary,
permissions). -/
inductive EslintExec where
  | ok (out : EslintStdout)
  | nonzero (out : EslintStdout) (status : Nat)
  | spawnErr (msg : String)

/-- Value of `totalErrors`: sum of the per-file `errorCount` fields. -/
def eslintTotalErrors (files : List EslintFile) : Nat :=
  (files.map (·.errorCount)).sum

/-- Value of `totalWarnings`: sum of the per-file `warningCount` fields. -/
def eslintTotalWarnings (files : List EslintFile) : Nat :=
  (files.map (·.warningCount)).sum

/-- Value of `filesWithErrors`: number of files with `errorCount > 0`. -/
def eslintFilesWithErrors (files : List EslintFile) : Nat :=
  (files.filter (fun f => 0 < f.errorCount)).length

/-- The full flat-mapped list of rendered error lines
(`results.flatMap(f => f.messages.filter(m => m.severity === 2).map(...))`);
the wrapper shows `.slice(0, 3)` of this list. -/
def eslintFindingLines (files : List EslintFile) : List String :=
  files.flatMap (fun f =>
    (f.messages.filter (fun m => m.severity == 2)).map (fun m =>
      let p := f.filePath
      let l := m.line
      let c := m.column
      let r := m.ruleId
      let g := m.message
      s!"   - {p}:{l}:{c} {r}: {g}"))

/-- The generated temp-file path `join(tmpdir(), sprintf)`; the 8-hex-char
`randomBytes(4)` suffix is an environment input. -/
def eslintTmpFile (suffix : String) : String :=
  s!"/tmp/eslint-{suffix}.json"

def eslintUsageLines : List String :=
  ["❌ ESLint: No targets specified",
   "   Usage: llm-eslint.js <path> [...paths]"]

def eslintExecErrorLine (msg : String) : String :=
  s!"❌ ESLint: Execution error - {msg}"

/-- Message of the error thrown by `JSON.parse` on invalid input; its text
is engine-specific and modelled opaquely. -/
def jsonParseErrorMessage : String := "Unexpected token in JSON"

/-- Message of the error thrown by `execFileSync` for a non-zero child
exit; its text is runtime-specific and modelled opaquely. -/
def commandFailedMessage (status : Nat) : String :=
  s!"Command failed with exit status {status}"

/-- The single success line of a passing ESLint run. -/
def eslintPassLine (files : List EslintFile) (suffix : String) : String :=
  let tmp := eslintTmpFile suffix
  let w := eslintTotalWarnings files
  let warnMsg := if 0 < w then s!", {w} warnings" else ""
  s!"✅ ESLint: 0 errors{warnMsg} (details: {tmp})"

/-- The first line of a failing ESLint report. -/
def eslintFailHeader (files : List EslintFile) : String :=
  let e := eslintTotalErrors files
  let w := eslintTotalWarnings files
  let n := eslintFilesWithErrors files
  s!"❌ ESLint: {e} errors, {w} warnings in {n} files"

/-- The final artifact-pointer line of a failing ESLint report. -/
def eslintDetailsLine (suffix : String) : String :=
  let tmp := eslintTmpFile suffix
  s!"   (details: {tmp})"

/-- Continuation of the ESLint wrapper after `jsonOutput` is fixed: parse,
compute the summary, write the artifact, report and exit. -/
def eslintAfterExec (out : EslintStdout) (suffix : String) : RunResult Json :=
  match out with
  | .malformed _ =>
      { exit := 2, stdout := [],
        stderr := [eslintExecErrorLine jsonParseErrorMessage], artifact := none }
  | .conformant files =>
      if eslintTotalErrors files = 0 then
        { exit := 0,
          stdout := [eslintPassLine files suffix],
          stderr := [], artifact := some (eslintResultsJson files) }
      else
        { exit := 1,
          stdout := eslintFailHeader files
            :: ((eslintFindingLines files).take 3 ++ [eslintDetailsLine suffix]),
          stderr := [], artifact := some (eslintResultsJson files) }

/-- The ESLint wrapper pipeline, from argument check to process exit. -/
def eslintRun (targets : List String) (exec : EslintExec) (suffix : String) :
    RunResult Json :=
  if targets.isEmpty then
    { exit := 2, stdout := [], stderr := eslintUsageLines, artifact := none }
  else
    match exec with
    | .spawnErr msg =>
        { exit := 2, stdout := [],
          stderr := [eslintExecErrorLine msg], artifact := none }
    | .ok out => eslintAfterExec out suffix
    | .nonzero out status =>
        if out.truthy then eslintAfterExec out suffix
        else
          { exit := 2, stdout := [],
            stderr := [eslintExecErrorLine (commandFailedMessage status)],
            artifact := none }

/-- The parsed result list the run works with, when the adapter succeeds:
the captured stdout must be truthy (for a non-zero child exit) and a valid
JSON document. -/
def eslintParsed : EslintExec → Option (List EslintFile)
  | .ok (.conformant files) => some files
  | .nonzero (.conformant files) _ => some files
  | _ => none

/-! ## PHPStan wrapper (`wrappers/php/phpstan/llm-phpstan.php`)

The wrapper decodes stdout with `json_decode($stdout, true)`, rejects a
`null` decode, replaces an `empty()` `files` entry with a `stdClass`,
writes the re-encoded data to a temp file, and classifies from
`$data['totals']['errors'] ?? 0` plus `$data['totals']['file_errors'] ?? 0`. -/

def kTotals : String := "totals"
def kErrors : String := "errors"
def kFileErrors : String := "file_errors"
def kFiles : String := "files"

/-- Classification of a PHP child process's captured stdout text. -/
inductive PhpStdout where
  | jsonText (j : Json)
  | nonJson (raw : String)

/-- Stream captures and exit status returned by `proc_open`/`proc_close`. -/
structure SpawnResult where
  stdout : PhpStdout
  stderr : String
  exitCode : Nat

/-- Result of `json_decode($s, true)`: `none` for invalid JSON, and also for the
valid document `null`, which decodes to PHP `null` and is
indistinguishable from a parse failure. -/
def phpJsonDecode : PhpStdout → Option Json
  | .jsonText .null => none
  | .jsonText j => some j
  | .nonJson _ => none

/-- PHP `empty()` on a decoded value (`none` models an undefined offset).
The empty string, `"0"`, `0`, `null`, `false` and the empty array are
empty; decoded associative arrays cover both JSON objects and arrays. -/
def phpEmpty : Option Json → Bool
  | none => true
  | some .null => true
  | some (.bool b) => !b
  | some (.num n) => n == 0
  | some (.str s) => s.isEmpty || s == "0"
  | some (.arr xs) => xs.isEmpty
  | some (.obj fs) => fs.isEmpty

/-- PHP `empty()` on a captured stream text (a PHP string). -/
def phpEmptyStr (s : String) : Bool := s.isEmpty || s == "0"

mutual

/-- Effect of the `json_decode($s, true)` / `json_encode` round trip on a
JSON structure: associative arrays erase the empty-object/empty-array
distinction, so every empty object re-encodes as `[]`; all other
structure is preserved (assuming no integral-string object keys). -/
def phpRoundTrip : Json → Json
  | .obj [] => .arr []
  | .obj fs => .obj (phpRoundTripFields fs)
  | .arr xs => .arr (phpRoundTripList xs)
  | .null => .null
  | .bool b => .bool b
  | .num n => .num n
  | .str s => .str s

def phpRoundTripList : List Json → List Json
  | [] => []
  | x :: xs => phpRoundTrip x :: phpRoundTripList xs

def phpRoundTripFields : List (String × Json) → List (String × Json)
  | [] => []
  | (k, v) :: fs => (k, phpRoundTrip v) :: phpRoundTripFields fs

end

/-- PHP assignment `$data[$k] = $v` on an associative array: overwrite in
place when the key exists, append otherwise. -/
def phpSetField : List (String × Json) → String → Json → List (String × Json)
  | [], k, v => [(k, v)]
  | (k', v') :: fs, k, v =>
      if k' == k then (k, v) :: fs else (k', v') :: phpSetField fs k v

/-- Structure written to the artifact file: the decoded data, with an
`empty()` `files` entry replaced by `new stdClass()` (which re-encodes as
`{}`), re-encoded through PHP associative arrays. -/
def phpstanArtifact (j : Json) : Json :=
  match j with
  | .obj fs =>
      if phpEmpty (Json.lookupField j kFiles) then
        .obj (phpSetField (phpRoundTripFields fs) kFiles (.obj []))
      else
        .obj (phpRoundTripFields fs)
  | .arr xs =>
      .obj ((xs.enum.map (fun p => (toString p.1, phpRoundTrip p.2))) ++
            [(kFiles, .obj [])])
  | j => phpRoundTrip j

/-- Value of `$data['totals'][$k] ?? 0` when the entry is an integer or
absent; the wrapper's count extraction. -/
def phpCountField (j : Json) (k : String) : Int :=
  match (Json.lookupField j kTotals).bind (fun t => Json.lookupField t k) with
  | some (.num n) => n
  | _ => 0

def phpstanTotalErrors (j : Json) : Int := phpCountField j kErrors

def phpstanFileErrors (j : Json) : Int := phpCountField j kFileErrors

/-- Well-formedness of one count entry under the tool's interface: the
`??`-guarded lookup is absent, `null`, or a non-negative integer. -/
def countFieldOK : Option Json → Bool
  | none => true
  | some .null => true
  | some (.num n) => decide (0 ≤ n)
  | some _ => false

/-- The decoded document respects PHPStan's output interface far enough
for the count extraction: both totals entries are absent or non-negative
integers. -/
def phpstanCountsWF (j : Json) : Bool :=
  countFieldOK ((Json.lookupField j kTotals).bind (fun t => Json.lookupField t kErrors)) &&
  countFieldOK ((Json.lookupField j kTotals).bind (fun t => Json.lookupField t kFileErrors))

/-- A decoded value PHP can use as an array (`$data['files'] = ...` on a
scalar raises a fatal `Error`). -/
def Json.isArrayLike : Json → Bool
  | .obj _ => true
  | .arr _ => true
  | _ => false

/-- Entries iterated by `foreach ($data['files'] as $filePath => $fileData)`
after normalisation: none when `files` was `empty()` (the loop then runs
over the property-less `stdClass`), else the decoded entries with their
keys. -/
def phpstanFilesEntries (j : Json) : List (String × Json) :=
  if phpEmpty (Json.lookupField j kFiles) then []
  else
    match Json.lookupField j kFiles with
    | some (.obj fs) => fs
    | some (.arr xs) => xs.enum.map (fun p => (toString p.1, p.2))
    | _ => []

/-- Values iterated by `foreach ($fileData['messages'] as $msg)`; a
missing or non-iterable entry yields a warning and zero iterations. -/
def phpstanMessages (fd : Json) : List Json :=
  match Json.lookupField fd kMessages with
  | some (.arr xs) => xs
  | some (.obj fs) => fs.map Prod.snd
  | _ => []

/-- PHP string interpolation of a decoded value. -/
def phpStringOf : Json → String
  | .null => ""
  | .bool b => if b then "1" else ""
  | .num n => toString n
  | .str s => s
  | .arr _ => "Array"
  | .obj _ => "Array"

/-- Interpolation of `{$msg[$k]}`: empty for an undefined offset. -/
def phpField (m : Json) (k : String) : String :=
  match Json.lookupField m k with
  | some v => phpStringOf v
  | none => ""

/-- One rendered finding line of the PHPStan fail report. -/
def phpstanFindingLine (path : String) (m : Json) : String :=
  let l := phpField m kLine
  let g := phpField m kMessage
  s!"   - {path}:{l} {g}"

/-- All finding lines of the decoded document, in native order, before
the `$shown >= 3` cap. -/
def phpstanAllFindingLines (j : Json) : List String :=
  (phpstanFilesEntries j).flatMap (fun e =>
    (phpstanMessages e.2).map (phpstanFindingLine e.1))

/-- The inner message loop with the `$shown` counter: returns the lines
printed, the updated counter, and whether `break 2` fired. -/
def phpstanMsgLoop (path : String) : List Json → Nat → List String × Nat × Bool
  | [], shown => ([], shown, false)
  | m :: rest, shown =>
      if 3 ≤ shown then ([], shown, true)
      else
        let r := phpstanMsgLoop path rest (shown + 1)
        (phpstanFindingLine path m :: r.1, r.2.1, r.2.2)

/-- The outer file loop: aborted by `break 2`, otherwise threading the
`$shown` counter. -/
def phpstanFilesLoop : List (String × Json) → Nat → List String
  | [], _ => []
  | e :: rest, shown =>
      let r := phpstanMsgLoop e.1 (phpstanMessages e.2) shown
      if r.2.2 then r.1 else r.1 ++ phpstanFilesLoop rest r.2.1

/-- The finding lines the fail report actually prints. -/
def phpstanShownLines (j : Json) : List String :=
  phpstanFilesLoop (phpstanFilesEntries j) 0

def phpstanUsageLines : List String :=
  ["❌ PHPStan: No targets specified",
   "   Usage: llm-phpstan.php <path> [...paths]"]

def phpstanBinaryLine : String :=
  "❌ PHPStan: Binary not found. Run composer install first."

def phpstanSpawnLine : String := "❌ PHPStan: Failed to start process"

def phpstanParseLine : String := "❌ PHPStan: Failed to parse JSON output"

def phpstanStderrEcho (s : String) : String := "   " ++ s.trim

/-- Artifact path: `tempnam(sys_get_temp_dir(), 'phpstan-') . '.json'`;
the `tempnam` result is an environment input. -/
def phpstanTmp (base : String) : String := base ++ ".json"

/-- Message of the uncaught PHP `Error` raised by using a decoded scalar
as an array; modelled opaquely. -/
def phpFatalScalarLine : String :=
  "PHP Fatal error: Uncaught Error: Cannot use a scalar value as an array"

/-- The single success line of a passing PHPStan run. -/
def phpstanPassLine (tmpBase : String) : String :=
  let tmp := phpstanTmp tmpBase
  s!"✅ PHPStan: 0 errors (details: {tmp})"

/-- The first line of a failing PHPStan report (it shows `file_errors`
only). -/
def phpstanFailHeader (j : Json) : String :=
  let fe := phpstanFileErrors j
  s!"❌ PHPStan: {fe} errors found"

/-- The final artifact-pointer line of a failing PHPStan report. -/
def phpstanDetailsLine (tmpBase : String) : String :=
  let tmp := phpstanTmp tmpBase
  s!"   (details: {tmp})"

/-- Continuation of the PHPStan wrapper after a successful decode:
normalise `files`, write the artifact, extract counts, report and exit. -/
def phpstanAfterDecode (j : Json) (tmpBase : String) : RunResult Json :=
  if j.isArrayLike then
    if phpstanTotalErrors j + phpstanFileErrors j = 0 then
      { exit := 0, stdout := [phpstanPassLine tmpBase],
        stderr := [], artifact := some (phpstanArtifact j) }
    else
      { exit := 1,
        stdout := phpstanFailHeader j
          :: (phpstanShownLines j ++ [phpstanDetailsLine tmpBase]),
        stderr := [], artifact := some (phpstanArtifact j) }
  else
    { exit := 255, stdout := [], stderr := [phpFatalScalarLine],
      artifact := none }

/-- The PHPStan wrapper pipeline, from argument check to process exit. -/
def phpstanRun (targets : List String) (binaryExists : Bool)
    (spawn : Option SpawnResult) (tmpBase : String) : RunResult Json :=
  if targets.isEmpty then
    { exit := 2, stdout := [], stderr := phpstanUsageLines, artifact := none }
  else if !binaryExists then
    { exit := 2, stdout := [], stderr := [phpstanBinaryLine], artifact := none }
  else
    match spawn with
    | none =>
        { exit := 2, stdout := [], stderr := [phpstanSpawnLine], artifact := none }
    | some res =>
        match phpJsonDecode res.stdout with
        | none =>
            { exit := 2, stdout := [],
              stderr := phpstanParseLine ::
                (if phpEmptyStr res.stderr then []
                 else [phpstanStderrEcho res.stderr]),
              artifact := none }
        | some j => phpstanAfterDecode j tmpBase

/-- The decoded document the run works with, when the wrapper reaches the
adapter stage. -/
def phpstanDecoded (spawn : Option SpawnResult) : Option Json :=
  spawn.bind (fun res => phpJsonDecode res.stdout)

/-! ## tsc wrapper (`llm-tsc.js`)

tsc has no JSON mode; the wrapper pattern-matches stdout line by line
against `^(.+?)\((\d+),(\d+)\):\s+(error|warning)\s+(TS\d+):\s+(.+)$`.
A captured stdout is modelled as its list of lines, each either a match
of this grammar (with its captured fields) or a non-matching line.
The artifact's `tool`, `version`, `timestamp` and `command` metadata
fields are environment-dependent and not modelled. -/

inductive TscSeverity where
  | error : TscSeverity
  | warning : TscSeverity
deriving DecidableEq, Repr

structure TscDiagnostic where
  file_path : String
  line : Nat
  column : Nat
  severity : TscSeverity
  code : String
  message : String
deriving DecidableEq, Repr

/-- One line of tsc's stdout, classified against the diagnostic regex. -/
inductive TscLine where
  | diag (d : TscDiagnostic)
  | other (raw : String)
deriving DecidableEq, Repr

/-- Outcome of `execFileSync` for tsc.  Unlike the ESLint wrapper, the
catch tests `err.stdout !== undefined`, so a captured empty stdout also
proceeds. -/
inductive TscExec where
  | ok (lines : List TscLine)
  | nonzero (lines : List TscLine) (status : Nat)
  | spawnErr (msg : String)
deriving DecidableEq, Repr

/-- The `diagnostics` array: one record per line matching the regex,
non-matching lines skipped. -/
def tscDiagnostics (lines : List TscLine) : List TscDiagnostic :=
  lines.filterMap (fun l =>
    match l with
    | .diag d => some d
    | .other _ => none)

def tscErrorCount (d : List TscDiagnostic) : Nat :=
  (d.filter (fun x => x.severity == TscSeverity.error)).length

def tscWarningCount (d : List TscDiagnostic) : Nat :=
  (d.filter (fun x => x.severity == TscSeverity.warning)).length

/-- Value of `new Set(errors.map(d => d.file_path)).size`. -/
def tscFilesWithErrors (d : List TscDiagnostic) : Nat :=
  ((d.filter (fun x => x.severity == TscSeverity.error)).map
    (fun x => x.file_path)).dedup.length

/-- Structure written to the tsc artifact file (metadata fields
omitted, see section comment). -/
structure TscOutput where
  exit_code : Nat
  total_errors : Nat
  total_warnings : Nat
  files_with_errors : Nat
  diagnostics : List TscDiagnostic
deriving DecidableEq, Repr

def tscFindingLine (d : TscDiagnostic) : String :=
  let f := d.file_path
  let l := d.line
  let c := d.column
  let k := d.code
  let g := d.message
  s!"   - {f}:{l}:{c} {k}: {g}"

def tscTmpFile (suffix : String) : String := s!"/tmp/tsc-{suffix}.json"

def tscUsageLines : List String :=
  ["❌ tsc: No targets specified",
   "   Usage: llm-tsc.js <path> [...paths]"]

def tscNoFilesLine : String := "❌ tsc: No TypeScript files found"

def tscExecErrorLine (msg : String) : String :=
  s!"❌ tsc: Execution error - {msg}"

/-- Continuation of the tsc wrapper once a stdout text is captured. -/
def tscAfterExec (lines : List TscLine) (suffix : String) :
    RunResult TscOutput :=
  let diags := tscDiagnostics lines
  let e := tscErrorCount diags
  let w := tscWarningCount diags
  let n := tscFilesWithErrors diags
  let out : TscOutput :=
    { exit_code := if 0 < e then 1 else 0, total_errors := e,
      total_warnings := w, files_with_errors := n, diagnostics := diags }
  let tmp := tscTmpFile suffix
  if e = 0 then
    { exit := 0, stdout := [s!"✅ tsc: 0 errors (details: {tmp})"],
      stderr := [], artifact := some out }
  else
    { exit := 1,
      stdout := s!"❌ tsc: {e} errors in {n} files"
        :: ((diags.take 3).map tscFindingLine ++ [s!"   (details: {tmp})"]),
      stderr := [], artifact := some out }

/-- The tsc wrapper pipeline.  `resolved` is the result of
`resolveTargets` (a filesystem walk, an environment input to the model).
The child's exit status is captured into `exitCode` by the source but
never read afterwards. -/
def tscRun (targets resolved : List String) (exec : TscExec)
    (suffix : String) : RunResult TscOutput :=
  if targets.isEmpty then
    { exit := 2, stdout := [], stderr := tscUsageLines, artifact := none }
  else if resolved.isEmpty then
    { exit := 2, stdout := [], stderr := [tscNoFilesLine], artifact := none }
  else
    match exec with
    | .spawnErr msg =>
        { exit := 2, stdout := [], stderr := [tscExecErrorLine msg],
          artifact := none }
    | .ok lines => tscAfterExec lines suffix
    | .nonzero lines _ => tscAfterExec lines suffix

/-! ## PHPUnit wrapper (`llm-phpunit.php`)

PHPUnit writes a JUnit XML log which the wrapper parses with
`simplexml_load_file` and converts to JSON.  The XML tree is modelled
with its count attributes already through PHP's `(int)` cast (JUnit count
attributes are non-negative decimal strings) and the `time` float
attribute omitted (floating point, read by no claim). -/

structure JunitIssue where
  type : String
  message : String
deriving DecidableEq, Repr

/-- A `<testcase>` element: its identity attributes and its
failure/error/skipped child elements. -/
structure JunitCase where
  name : String
  className : String
  file : String
  line : Nat
  assertions : Nat
  failure : Option JunitIssue
  error : Option JunitIssue
  skipped : Bool
deriving DecidableEq, Repr

/-- A `<testsuite>` element: aggregate attributes, own `<testcase>`
children and nested `<testsuite>` children.  (The XML attribute `class`
of a testcase is modelled as `className`.) -/
inductive JunitSuite where
  | mk (name : String) (file : Option String)
       (tests assertions errors failures skippedCount : Nat)
       (cases : List JunitCase) (children : List JunitSuite)

def JunitSuite.name : JunitSuite → String
  | .mk n _ _ _ _ _ _ _ _ => n

def JunitSuite.fileAttr : JunitSuite → Option String
  | .mk _ f _ _ _ _ _ _ _ => f

def JunitSuite.tests : JunitSuite → Nat
  | .mk _ _ t _ _ _ _ _ _ => t

def JunitSuite.assertions : JunitSuite → Nat
  | .mk _ _ _ a _ _ _ _ _ => a

def JunitSuite.errors : JunitSuite → Nat
  | .mk _ _ _ _ e _ _ _ _ => e

def JunitSuite.failures : JunitSuite → Nat
  | .mk _ _ _ _ _ f _ _ _ => f

def JunitSuite.skippedCount : JunitSuite → Nat
  | .mk _ _ _ _ _ _ s _ _ => s

def JunitSuite.cases : JunitSuite → List JunitCase
  | .mk _ _ _ _ _ _ _ c _ => c

def JunitSuite.children : JunitSuite → List JunitSuite
  | .mk _ _ _ _ _ _ _ _ ch => ch

/-- The `status` string of a converted test case. -/
inductive CaseStatus where
  | passed : CaseStatus
  | failed : CaseStatus
  | error : CaseStatus
  | skipped : CaseStatus
deriving DecidableEq, Repr

/-- One converted test case record. -/
structure CaseResult where
  name : String
  className : String
  file : String
  line : Nat
  assertions : Nat
  status : CaseStatus
  failure : Option JunitIssue
  error : Option JunitIssue
deriving DecidableEq, Repr

/-- One converted suite record; `test_cases` is the flattened list. -/
structure SuiteResult where
  name : String
  tests : Nat
  assertions : Nat
  errors : Nat
  failures : Nat
  skipped : Nat
  file : Option String
  test_cases : List CaseResult
deriving DecidableEq, Repr

/-- Status assignment of `parseSuite`: it starts at `'passed'` and is
successively overwritten by the `failure`, `error` and `skipped` checks,
so the last applicable marker wins. -/
def caseStatusOf (tc : JunitCase) : CaseStatus :=
  if tc.skipped then .skipped
  else if tc.error.isSome then .error
  else if tc.failure.isSome then .failed
  else .passed

def trimIssue (i : JunitIssue) : JunitIssue :=
  { i with message := i.message.trim }

/-- Conversion of one `<testcase>` element into its record. -/
def caseResultOf (tc : JunitCase) : CaseResult :=
  { name := tc.name, className := tc.className, file := tc.file,
    line := tc.line, assertions := tc.assertions,
    status := caseStatusOf tc,
    failure := tc.failure.map trimIssue,
    error := tc.error.map trimIssue }

mutual

/-- Function `parseSuite`: converts a suite, merging every nested suite's
`test_cases` into this suite's flat `test_cases` list. -/
def parseSuite : JunitSuite → SuiteResult
  | .mk n f t a e fl sk cs ch =>
      { name := n, tests := t, assertions := a, errors := e, failures := fl,
        skipped := sk, file := f,
        test_cases := cs.map caseResultOf ++ parseSuiteChildren ch }

/-- The `foreach ($suite->testsuite as $child)` recursion of
`parseSuite`. -/
def parseSuiteChildren : List JunitSuite → List CaseResult
  | [] => []
  | s :: rest => (parseSuite s).test_cases ++ parseSuiteChildren rest

end

mutual

/-- The leaf `<testcase>` elements of a suite subtree, in document
order: own cases first, then each nested suite's leaves. -/
def leafCases : JunitSuite → List JunitCase
  | .mk _ _ _ _ _ _ _ cs ch => cs ++ leafCasesList ch

def leafCasesList : List JunitSuite → List JunitCase
  | [] => []
  | s :: rest => leafCases s ++ leafCasesList rest

end

structure PhpunitSummary where
  tests : Nat
  assertions : Nat
  errors : Nat
  failures : Nat
  skipped : Nat
deriving DecidableEq, Repr

/-- Structure written to the PHPUnit artifact file (`tool` and `time`
metadata omitted, see section comment). -/
structure PhpunitData where
  summary : PhpunitSummary
  test_suites : List SuiteResult
deriving DecidableEq, Repr

/-- State of the `--log-junit` file after the child exits. -/
inductive JunitOutcome where
  | noFile
  | unparseable
  | parsed (suites : List JunitSuite)

/-- Captures of the PHPUnit child process; `suites` of a parsed log are
the `<testsuite>` children of the `<testsuites>` document root. -/
structure PhpunitProc where
  stdoutText : String
  stderrText : String
  exitCode : Nat
  junit : JunitOutcome

def nlStr : String := "\n"

/-- PHP `trim(explode("\n", $s)[0] ?? '')`. -/
def firstLineTrimmed (s : String) : String :=
  (((s.splitOn nlStr).get? 0).getD "").trim

/-- PHP `explode("\n", $m)[1] ?? $m`, trimmed: the second line of a
failure message (PHPUnit puts the assertion text there), or the whole
message. -/
def secondLineOr (m : String) : String :=
  (((m.splitOn nlStr).get? 1).getD m).trim

/-- PHP `explode("\n", $m)[0] ?? $m`, trimmed. -/
def firstLineOr (m : String) : String :=
  (((m.splitOn nlStr).get? 0).getD m).trim

/-- The line the fail report prints for one test case: failed and
`'error'` cases only. -/
def phpunitCaseLine (c : CaseResult) : Option String :=
  match c.status with
  | .failed =>
      let cls := c.className
      let nm := c.name
      let g := secondLineOr ((c.failure.map (fun i => i.message)).getD "")
      some s!"   - {cls}::{nm}: {g}"
  | .error =>
      let cls := c.className
      let nm := c.name
      let g := firstLineOr ((c.error.map (fun i => i.message)).getD "")
      some s!"   - {cls}::{nm}: {g}"
  | _ => none

/-- The inner testcase loop with the `$shown` counter: lines printed,
updated counter, and whether `break 2` fired. -/
def phpunitCaseLoop : List CaseResult → Nat → List String × Nat × Bool
  | [], shown => ([], shown, false)
  | c :: rest, shown =>
      if 3 ≤ shown then ([], shown, true)
      else
        match phpunitCaseLine c with
        | some l =>
            let r := phpunitCaseLoop rest (shown + 1)
            (l :: r.1, r.2.1, r.2.2)
        | none => phpunitCaseLoop rest shown

/-- The outer suite loop, aborted by `break 2`. -/
def phpunitSuitesLoop : List SuiteResult → Nat → List String
  | [], _ => []
  | s :: rest, shown =>
      let r := phpunitCaseLoop s.test_cases shown
      if r.2.2 then r.1 else r.1 ++ phpunitSuitesLoop rest r.2.1

def phpunitUsageLines : List String :=
  ["❌ PHPUnit: No targets specified",
   "   Usage: llm-phpunit.php <path> [...paths]"]

def phpunitBinaryLine : String :=
  "❌ PHPUnit: Binary not found. Run composer install first."

def phpunitSpawnLine : String := "❌ PHPUnit: Failed to start process"

def phpunitNoLogLine : String := "❌ PHPUnit: JUnit log not generated"

def phpunitXmlLine : String := "❌ PHPUnit: Failed to parse JUnit XML"

/-- Summary taken from the first `<testsuite>` child's own aggregate
attributes; all-zero when the log has no `<testsuite>` child (PHP's
attribute read on an empty element list yields `null`, cast to `0`). -/
def phpunitSummary (suites : List JunitSuite) : PhpunitSummary :=
  match suites.head? with
  | some s =>
      { tests := s.tests, assertions := s.assertions, errors := s.errors,
        failures := s.failures, skipped := s.skippedCount }
  | none => { tests := 0, assertions := 0, errors := 0, failures := 0, skipped := 0 }

/-- The converted `test_suites` array: `parseSuite` over the root
suite's `<testsuite>` children. -/
def phpunitTestSuites (suites : List JunitSuite) : List SuiteResult :=
  match suites.head? with
  | some s => s.children.map parseSuite
  | none => []

/-- The PHPUnit wrapper pipeline, from argument check to process exit. -/
def phpunitRun (targets : List String) (binaryExists : Bool)
    (proc : Option PhpunitProc) (tmpBase : String) : RunResult PhpunitData :=
  if targets.isEmpty then
    { exit := 2, stdout := [], stderr := phpunitUsageLines, artifact := none }
  else if !binaryExists then
    { exit := 2, stdout := [], stderr := [phpunitBinaryLine], artifact := none }
  else
    match proc with
    | none =>
        { exit := 2, stdout := [], stderr := [phpunitSpawnLine], artifact := none }
    | some pr =>
        match pr.junit with
        | .noFile =>
            { exit := 2, stdout := [],
              stderr := phpunitNoLogLine ::
                ((if phpEmptyStr pr.stdoutText then []
                  else ["   " ++ firstLineTrimmed pr.stdoutText]) ++
                 (if phpEmptyStr pr.stderrText then []
                  else ["   " ++ firstLineTrimmed pr.stderrText])),
              artifact := none }
        | .unparseable =>
            { exit := 2, stdout := [], stderr := [phpunitXmlLine], artifact := none }
        | .parsed suites =>
            let summary := phpunitSummary suites
            let ts := phpunitTestSuites suites
            let dataV : PhpunitData := { summary := summary, test_suites := ts }
            let tmp := tmpBase ++ ".json"
            let t := summary.tests
            if summary.failures + summary.errors = 0 then
              { exit := 0,
                stdout := [s!"✅ PHPUnit: {t} tests passed (details: {tmp})"],
                stderr := [], artifact := some dataV }
            else
              let fl := summary.failures
              let e := summary.errors
              { exit := 1,
                stdout := s!"❌ PHPUnit: {fl} failures, {e} errors in {t} tests"
                  :: (phpunitSuitesLoop ts 0 ++ [s!"   (details: {tmp})"]),
                stderr := [], artifact := some dataV }

/-! ## Supporting definitions and lemmas -/

/-- Whether the character list `pat` occurs at the head of `l`. -/
def charsStartWith : List Char → List Char → Bool
  | _, [] => true
  | [], _ :: _ => false
  | a :: as, b :: bs => a == b && charsStartWith as bs

/-- Whether the character list `pat` occurs anywhere in `l`. -/
def charsContain : List Char → List Char → Bool
  | [], pat => pat.isEmpty
  | a :: rest, pat => charsStartWith (a :: rest) pat || charsContain rest pat

/-- Whether `pat` occurs as a substring of `s`. -/
def strContainsSub (s pat : String) : Bool :=
  charsContain s.toList pat.toList

mutual

/-- Whether a JSON structure contains no empty object anywhere; on such
structures PHP's associative-array round trip is the identity. -/
def noEmptyObj : Json → Bool
  | .obj fs => !fs.isEmpty && noEmptyObjFields fs
  | .arr xs => noEmptyObjList xs
  | _ => true

def noEmptyObjList : List Json → Bool
  | [] => true
  | x :: xs => noEmptyObj x && noEmptyObjList xs

def noEmptyObjFields : List (String × Json) → Bool
  | [] => true
  | f :: fs => noEmptyObj f.2 && noEmptyObjFields fs

end

mutual

/-- On structures without empty objects, the PHP associative-array round
trip preserves the JSON structure. -/
theorem phpRoundTrip_eq_of_noEmptyObj (j : Json) (h : noEmptyObj j = true) :
    phpRoundTrip j = j := by
  match j with
  | .null => rfl
  | .bool b => rfl
  | .num n => rfl
  | .str s => rfl
  | .arr xs =>
      have h2 : noEmptyObjList xs = true := by simpa [noEmptyObj] using h
      simp [phpRoundTrip, phpRoundTripList_eq_of_noEmptyObj xs h2]
  | .obj [] => simp [noEmptyObj, List.isEmpty] at h
  | .obj (f :: fs) =>
      have h2 : noEmptyObjFields (f :: fs) = true := by
        rw [noEmptyObj, Bool.and_eq_true] at h
        exact h.2
      simp [phpRoundTrip, phpRoundTripFields_eq_of_noEmptyObj (f :: fs) h2]

theorem phpRoundTripList_eq_of_noEmptyObj (xs : List Json)
    (h : noEmptyObjList xs = true) : phpRoundTripList xs = xs := by
  match xs with
  | [] => rfl
  | x :: rest =>
      rw [noEmptyObjList, Bool.and_eq_true] at h
      rw [phpRoundTripList, phpRoundTrip_eq_of_noEmptyObj x h.1,
        phpRoundTripList_eq_of_noEmptyObj rest h.2]

theorem phpRoundTripFields_eq_of_noEmptyObj (fs : List (String × Json))
    (h : noEmptyObjFields fs = true) : phpRoundTripFields fs = fs := by
  match fs with
  | [] => rfl
  | f :: rest =>
      rw [noEmptyObjFields, Bool.and_eq_true] at h
      rw [phpRoundTripFields, phpRoundTrip_eq_of_noEmptyObj f.2 h.1,
        phpRoundTripFields_eq_of_noEmptyObj rest h.2]

end

/-- Closed form of the inner PHPStan message loop: it prints the first
`3 - n` lines, advances the counter accordingly, and breaks exactly when
messages remain beyond the cap. -/
theorem phpstanMsgLoop_spec (path : String) (ms : List Json) (n : Nat) :
    phpstanMsgLoop path ms n =
      ((ms.map (phpstanFindingLine path)).take (3 - n),
        n + min ms.length (3 - n),
        decide (3 - n < ms.length)) := by
  induction ms generalizing n with
  | nil => simp [phpstanMsgLoop]
  | cons m rest ih =>
    by_cases h : 3 ≤ n
    · have h0 : 3 - n = 0 := Nat.sub_eq_zero_of_le h
      simp [phpstanMsgLoop, h, h0]
    · have h1 : 3 - n = (3 - (n + 1)) + 1 := by omega
      rw [phpstanMsgLoop, if_neg h, ih (n + 1)]
      refine Prod.ext ?_ (Prod.ext ?_ ?_)
      · simp [h1]
      · simp only [List.length_cons]
        omega
      · simp only [List.length_cons, decide_eq_decide]
        omega

/-- Closed form of the outer PHPStan file loop with the `break 2`. -/
theorem phpstanFilesLoop_spec (entries : List (String × Json)) (n : Nat) :
    phpstanFilesLoop entries n =
      (entries.flatMap (fun e =>
        (phpstanMessages e.2).map (phpstanFindingLine e.1))).take (3 - n) := by
  induction entries generalizing n with
  | nil => simp [phpstanFilesLoop]
  | cons e rest ih =>
    rw [phpstanFilesLoop, phpstanMsgLoop_spec, List.flatMap_cons]
    by_cases h : 3 - n < (phpstanMessages e.2).length
    · rw [if_pos (by simpa using h)]
      rw [List.take_append_of_le_length (by simpa using Nat.le_of_lt h)]
    · rw [if_neg (by simpa using h)]
      have hlen : (phpstanMessages e.2).length ≤ 3 - n := Nat.le_of_not_lt h
      rw [ih, List.take_append_eq_append_take]
      rw [List.take_of_length_le (by simpa using hlen)]
      rw [Nat.min_eq_left hlen]
      have harg : 3 - (n + (phpstanMessages e.2).length) =
          3 - n - ((phpstanMessages e.2).map (phpstanFindingLine e.1)).length := by
        simp only [List.length_map]
        omega
      rw [harg]

/-- The PHPStan fail report shows exactly the first three finding lines
in native order. -/
theorem phpstanShownLines_eq (j : Json) :
    phpstanShownLines j = (phpstanAllFindingLines j).take 3 := by
  rw [phpstanShownLines, phpstanAllFindingLines, phpstanFilesLoop_spec]

/-- Under the tool-interface well-formedness assumption, both extracted
counts are non-negative. -/
theorem phpstanCounts_nonneg (j : Json) (h : phpstanCountsWF j = true) :
    0 ≤ phpstanTotalErrors j ∧ 0 ≤ phpstanFileErrors j := by
  rw [phpstanCountsWF, Bool.and_eq_true] at h
  obtain ⟨h1, h2⟩ := h
  constructor
  · rw [phpstanTotalErrors, phpCountField]
    cases hx : ((Json.lookupField j kTotals).bind fun t => Json.lookupField t kErrors) with
    | none => simp
    | some v =>
        rw [hx] at h1
        cases v <;> simp_all [countFieldOK]
  · rw [phpstanFileErrors, phpCountField]
    cases hx : ((Json.lookupField j kTotals).bind fun t => Json.lookupField t kFileErrors) with
    | none => simp
    | some v =>
        rw [hx] at h2
        cases v <;> simp_all [countFieldOK]

/-! ## Exit-status classification (helper lemmas) -/

/-- Exit-status classification of the ESLint wrapper: exit 0, 1 and 2
characterised by the adapter outcome and the extracted error count. -/
theorem eslint_exit_iff (targets : List String) (exec : EslintExec) (suffix : String) :
    ((eslintRun targets exec suffix).exit = 0 ↔
      targets ≠ [] ∧ ∃ files, eslintParsed exec = some files ∧
        eslintTotalErrors files = 0) ∧
    ((eslintRun targets exec suffix).exit = 1 ↔
      targets ≠ [] ∧ ∃ files, eslintParsed exec = some files ∧
        0 < eslintTotalErrors files) ∧
    ((eslintRun targets exec suffix).exit = 2 ↔
      targets = [] ∨ eslintParsed exec = none) := by
  cases targets with
  | nil => simp [eslintRun, eslintParsed]
  | cons t ts =>
    cases exec with
    | spawnErr msg => simp [eslintRun, eslintParsed]
    | ok out =>
      cases out with
      | malformed raw => simp [eslintRun, eslintAfterExec, eslintParsed]
      | conformant files =>
        by_cases h : eslintTotalErrors files = 0
        · simp [eslintRun, eslintAfterExec, eslintParsed, h]
        · simp [eslintRun, eslintAfterExec, eslintParsed, h, Nat.pos_of_ne_zero h]
    | nonzero out status =>
      cases out with
      | malformed raw =>
        by_cases hr : raw.isEmpty
        · simp [eslintRun, EslintStdout.truthy, hr, eslintParsed]
        · simp [eslintRun, eslintAfterExec, EslintStdout.truthy, hr, eslintParsed]
      | conformant files =>
        by_cases h : eslintTotalErrors files = 0
        · simp [eslintRun, eslintAfterExec, EslintStdout.truthy, eslintParsed, h]
        · simp [eslintRun, eslintAfterExec, EslintStdout.truthy, eslintParsed, h,
            Nat.pos_of_ne_zero h]

/-- Exit-status classification of the PHPStan wrapper, under the
tool-interface assumption on any decoded document. -/
theorem phpstan_exit_iff (targets : List String) (binaryExists : Bool)
    (spawn : Option SpawnResult) (tmpBase : String)
    (hwf : ∀ j, phpstanDecoded spawn = some j →
      j.isArrayLike = true ∧ phpstanCountsWF j = true) :
    ((phpstanRun targets binaryExists spawn tmpBase).exit = 0 ↔
      targets ≠ [] ∧ binaryExists = true ∧
      ∃ j, phpstanDecoded spawn = some j ∧
        phpstanTotalErrors j + phpstanFileErrors j = 0) ∧
    ((phpstanRun targets binaryExists spawn tmpBase).exit = 1 ↔
      targets ≠ [] ∧ binaryExists = true ∧
      ∃ j, phpstanDecoded spawn = some j ∧
        0 < phpstanTotalErrors j + phpstanFileErrors j) ∧
    ((phpstanRun targets binaryExists spawn tmpBase).exit = 2 ↔
      targets = [] ∨ binaryExists = false ∨ phpstanDecoded spawn = none) := by
  cases targets with
  | nil => simp [phpstanRun, phpstanDecoded]
  | cons t ts =>
    cases binaryExists with
    | false => simp [phpstanRun]
    | true =>
      cases spawn with
      | none => simp [phpstanRun, phpstanDecoded]
      | some res =>
        cases hdec : phpJsonDecode res.stdout with
        | none => simp [phpstanRun, phpstanDecoded, hdec]
        | some j =>
          obtain ⟨harr, hwfj⟩ := hwf j (by simp [phpstanDecoded, hdec])
          obtain ⟨hte, hfe⟩ := phpstanCounts_nonneg j hwfj
          by_cases hsum : phpstanTotalErrors j + phpstanFileErrors j = 0
          · simp [phpstanRun, phpstanDecoded, hdec, phpstanAfterDecode, harr, hsum]
          · have hpos : 0 < phpstanTotalErrors j + phpstanFileErrors j := by omega
            simp [phpstanRun, phpstanDecoded, hdec, phpstanAfterDecode, harr, hsum,
              hpos]

/-! ## Claim theorems -/

/-- C1: for every run of the ESLint and PHPStan wrappers, the exit status
is determined solely by the extracted error count and the wrapper-side
failure state: exit 0 iff the adapter succeeded with zero errors (whatever
the warning count), exit 1 iff it succeeded with a positive error count,
and exit 2 iff a wrapper-side error occurred (no targets, missing binary,
spawn failure, or unparseable output).  The PHPStan half assumes the
decoded document respects the tool's output interface. -/
theorem exit_code_classification :
    (∀ (targets : List String) (exec : EslintExec) (suffix : String),
      ((eslintRun targets exec suffix).exit = 0 ↔
        targets ≠ [] ∧ ∃ files, eslintParsed exec = some files ∧
          eslintTotalErrors files = 0) ∧
      ((eslintRun targets exec suffix).exit = 1 ↔
        targets ≠ [] ∧ ∃ files, eslintParsed exec = some files ∧
          0 < eslintTotalErrors files) ∧
      ((eslintRun targets exec suffix).exit = 2 ↔
        targets = [] ∨ eslintParsed exec = none)) ∧
    (∀ (targets : List String) (binaryExists : Bool) (spawn : Option SpawnResult)
        (tmpBase : String),
      (∀ j, phpstanDecoded spawn = some j →
        j.isArrayLike = true ∧ phpstanCountsWF j = true) →
      ((phpstanRun targets binaryExists spawn tmpBase).exit = 0 ↔
        targets ≠ [] ∧ binaryExists = true ∧
        ∃ j, phpstanDecoded spawn = some j ∧
          phpstanTotalErrors j + phpstanFileErrors j = 0) ∧
      ((phpstanRun targets binaryExists spawn tmpBase).exit = 1 ↔
        targets ≠ [] ∧ binaryExists = true ∧
        ∃ j, phpstanDecoded spawn = some j ∧
          0 < phpstanTotalErrors j + phpstanFileErrors j) ∧
      ((phpstanRun targets binaryExists spawn tmpBase).exit = 2 ↔
        targets = [] ∨ binaryExists = false ∨ phpstanDecoded spawn = none)) :=
  ⟨fun targets exec suffix => eslint_exit_iff targets exec suffix,
   fun targets b spawn tmpBase hwf => phpstan_exit_iff targets b spawn tmpBase hwf⟩

/-- A PHPStan output document with zero totals and an empty files array. -/
def phpstanPassDoc : Json :=
  .obj [(kTotals, .obj [(kErrors, .num 0), (kFileErrors, .num 0)]),
        (kFiles, .arr [])]

/-- Witness for C1: a concrete clean PHPStan run (child exit 1 ignored)
exits 0. -/
theorem exit_code_classification_witness :
    (phpstanRun ["src"] true (some ⟨.jsonText phpstanPassDoc, "", 1⟩)
      "/tmp/phpstan-w1").exit = 0 :=
  ((exit_code_classification.2 ["src"] true
      (some ⟨.jsonText phpstanPassDoc, "", 1⟩) "/tmp/phpstan-w1"
      (fun j h => by
        have h2 : some phpstanPassDoc = some j := h
        obtain rfl := Option.some.inj h2
        exact ⟨rfl, rfl⟩)).1).mpr
    ⟨List.cons_ne_nil _ _, rfl, phpstanPassDoc, rfl, rfl⟩

/-- C2: for every ESLint or PHPStan run in which the tool's output cannot
be parsed in its expected format, the wrapper exits 2, writes a
diagnostic to stderr, writes no artifact, and in particular never exits
0. -/
theorem malformed_output_never_passes :
    (∀ (targets : List String) (exec : EslintExec) (suffix : String),
      targets ≠ [] → (∀ msg, exec ≠ .spawnErr msg) → eslintParsed exec = none →
      (eslintRun targets exec suffix).exit = 2 ∧
      (eslintRun targets exec suffix).stderr ≠ [] ∧
      (eslintRun targets exec suffix).artifact = none) ∧
    (∀ (targets : List String) (res : SpawnResult) (tmpBase : String),
      targets ≠ [] → phpJsonDecode res.stdout = none →
      (phpstanRun targets true (some res) tmpBase).exit = 2 ∧
      (phpstanRun targets true (some res) tmpBase).stderr ≠ [] ∧
      (phpstanRun targets true (some res) tmpBase).artifact = none) := by
  constructor
  · intro targets exec suffix ht hsp hp
    cases targets with
    | nil => exact absurd rfl ht
    | cons t ts =>
      cases exec with
      | spawnErr msg => exact absurd rfl (hsp msg)
      | ok out =>
        cases out with
        | conformant files => simp [eslintParsed] at hp
        | malformed raw => simp [eslintRun, eslintAfterExec]
      | nonzero out status =>
        cases out with
        | conformant files => simp [eslintParsed] at hp
        | malformed raw =>
          by_cases hr : raw.isEmpty <;>
            simp [eslintRun, eslintAfterExec, EslintStdout.truthy, hr]
  · intro targets res tmpBase ht hdec
    cases targets with
    | nil => exact absurd rfl ht
    | cons t ts => simp [phpstanRun, hdec]

/-- Witness for C2: a concrete ESLint run on non-JSON output exits 2. -/
theorem malformed_output_never_passes_witness :
    (eslintRun ["src"] (.ok (.malformed "Oops, something crashed"))
      "ab12cd34").exit = 2 :=
  (malformed_output_never_passes.1 ["src"]
    (.ok (.malformed "Oops, something crashed")) "ab12cd34"
    (List.cons_ne_nil _ _) (fun msg h => EslintExec.noConfusion h) rfl).1

/-- C3: a non-zero child exit with parseable output is not an invocation
failure: the run result is identical to the one for a zero child exit,
and the exit status is 0 or 1 according to the extracted counts — never 2
merely because of the tool's exit status.  Proved for the ESLint, PHPStan
and tsc wrappers (the PHPStan wrapper never reads `$exitCode` at all). -/
theorem nonzero_exit_with_parseable_output_classified :
    (∀ (targets : List String) (files : List EslintFile) (status : Nat)
        (suffix : String),
      eslintRun targets (.nonzero (.conformant files) status) suffix =
        eslintRun targets (.ok (.conformant files)) suffix ∧
      (targets ≠ [] →
        (eslintRun targets (.nonzero (.conformant files) status) suffix).exit =
          (if eslintTotalErrors files = 0 then 0 else 1))) ∧
    (∀ (targets : List String) (b : Bool) (out : PhpStdout) (errText : String)
        (status : Nat) (tmpBase : String),
      phpstanRun targets b (some ⟨out, errText, status⟩) tmpBase =
        phpstanRun targets b (some ⟨out, errText, 0⟩) tmpBase ∧
      (∀ j, targets ≠ [] → b = true → phpJsonDecode out = some j →
        j.isArrayLike = true →
        (phpstanRun targets b (some ⟨out, errText, status⟩) tmpBase).exit =
          (if phpstanTotalErrors j + phpstanFileErrors j = 0 then 0 else 1))) ∧
    (∀ (targets resolved : List String) (lines : List TscLine) (status : Nat)
        (suffix : String),
      tscRun targets resolved (.nonzero lines status) suffix =
        tscRun targets resolved (.ok lines) suffix ∧
      (targets ≠ [] → resolved ≠ [] →
        (tscRun targets resolved (.nonzero lines status) suffix).exit =
          (if tscErrorCount (tscDiagnostics lines) = 0 then 0 else 1))) := by
  refine ⟨fun targets files status suffix => ⟨rfl, ?_⟩,
    fun targets b out errText status tmpBase => ⟨rfl, ?_⟩,
    fun targets resolved lines status suffix => ⟨rfl, ?_⟩⟩
  · intro ht
    cases targets with
    | nil => exact absurd rfl ht
    | cons t ts =>
      by_cases h : eslintTotalErrors files = 0 <;>
        simp [eslintRun, eslintAfterExec, EslintStdout.truthy, h]
  · intro j ht hb hdec harr
    subst hb
    cases targets with
    | nil => exact absurd rfl ht
    | cons t ts =>
      by_cases h : phpstanTotalErrors j + phpstanFileErrors j = 0 <;>
        simp [phpstanRun, hdec, phpstanAfterDecode, harr, h]
  · intro ht hr
    cases targets with
    | nil => exact absurd rfl ht
    | cons t ts =>
      cases resolved with
      | nil => exact absurd rfl hr
      | cons f fs =>
        by_cases h : tscErrorCount (tscDiagnostics lines) = 0 <;>
          simp [tscRun, tscAfterExec, h]

/-- A sample ESLint message with error severity. -/
def eslintMsg1 : EslintMessage :=
  { line := 1, column := 1, severity := 2, ruleId := "no-var",
    message := "Unexpected var", extra := [] }

/-- A sample ESLint file record with one error. -/
def eslintFile1 : EslintFile :=
  { filePath := "src/app.js", errorCount := 1, warningCount := 0,
    messages := [eslintMsg1], extra := [] }

/-- Witness for C3: a concrete ESLint run whose child exited 1 with one
reported error is classified as a failing run (exit 1), not an error. -/
theorem nonzero_exit_with_parseable_output_classified_witness :
    (eslintRun ["src"] (.nonzero (.conformant [eslintFile1]) 1) "ab12cd34").exit =
      (if eslintTotalErrors [eslintFile1] = 0 then 0 else 1) :=
  (nonzero_exit_with_parseable_output_classified.1 ["src"] [eslintFile1] 1
    "ab12cd34").2 (List.cons_ne_nil _ _)

/-- C4 (code evaluation): the tsc wrapper run in which the child exits
with failing status 2 and stdout contains no line matching the diagnostic
grammar yields zero extracted errors, prints the success line and exits 0
— the captured child status is never consulted.  The claim (and the
spec's scenario D) requires `counts.errors = 1`, a fail decision and exit
1 for this input. -/
theorem tsc_zero_match_failing_exit_reports_pass :
    tscRun ["src"] ["/abs/src/app.ts"]
      (.nonzero
        [.other "error TS18003: No inputs were found in config file tsconfig.json."]
        2)
      "deadbeef" =
    { exit := 0, stdout := ["✅ tsc: 0 errors (details: /tmp/tsc-deadbeef.json)"],
      stderr := [],
      artifact := some { exit_code := 0, total_errors := 0, total_warnings := 0,
                         files_with_errors := 0, diagnostics := [] } } := by
  rfl

/-- C6: the terminal report is bounded, for the ESLint and PHPStan
wrappers: every run prints at most 5 stdout lines; a passing run prints
exactly one line; a failing run prints the header, then exactly the first
3 finding lines in the findings' native order (fewer if fewer exist, with
no truncation marker), then the artifact-pointer line. -/
theorem terse_report_bounded :
    (∀ (targets : List String) (exec : EslintExec) (suffix : String),
      (eslintRun targets exec suffix).stdout.length ≤ 5 ∧
      ((eslintRun targets exec suffix).exit = 0 →
        (eslintRun targets exec suffix).stdout.length = 1) ∧
      (∀ files, eslintParsed exec = some files →
        (eslintRun targets exec suffix).exit = 1 →
        (eslintRun targets exec suffix).stdout =
          eslintFailHeader files
            :: ((eslintFindingLines files).take 3 ++ [eslintDetailsLine suffix]))) ∧
    (∀ (targets : List String) (b : Bool) (spawn : Option SpawnResult)
        (tmpBase : String),
      (phpstanRun targets b spawn tmpBase).stdout.length ≤ 5 ∧
      ((phpstanRun targets b spawn tmpBase).exit = 0 →
        (phpstanRun targets b spawn tmpBase).stdout.length = 1) ∧
      (∀ j, phpstanDecoded spawn = some j →
        (phpstanRun targets b spawn tmpBase).exit = 1 →
        (phpstanRun targets b spawn tmpBase).stdout =
          phpstanFailHeader j
            :: ((phpstanAllFindingLines j).take 3 ++ [phpstanDetailsLine tmpBase]))) := by
  constructor
  · intro targets exec suffix
    cases targets with
    | nil => simp [eslintRun]
    | cons t ts =>
      cases exec with
      | spawnErr msg => simp [eslintRun, eslintParsed]
      | ok out =>
        cases out with
        | malformed raw => simp [eslintRun, eslintAfterExec, eslintParsed]
        | conformant files =>
          by_cases h : eslintTotalErrors files = 0
          · simp [eslintRun, eslintAfterExec, eslintParsed, h]
          · refine ⟨?_, ?_, ?_⟩
            · simp [eslintRun, eslintAfterExec, h, List.length_take]
            · simp [eslintRun, eslintAfterExec, h]
            · intro files' hf hexit
              have h2 : some files = some files' := hf
              obtain rfl := Option.some.inj h2
              simp [eslintRun, eslintAfterExec, h]
      | nonzero out status =>
        cases out with
        | malformed raw =>
          by_cases hr : raw.isEmpty <;>
            simp [eslintRun, eslintAfterExec, EslintStdout.truthy, hr, eslintParsed]
        | conformant files =>
          by_cases h : eslintTotalErrors files = 0
          · simp [eslintRun, eslintAfterExec, EslintStdout.truthy, eslintParsed, h]
          · refine ⟨?_, ?_, ?_⟩
            · simp [eslintRun, eslintAfterExec, EslintStdout.truthy, h,
                List.length_take]
            · simp [eslintRun, eslintAfterExec, EslintStdout.truthy, h]
            · intro files' hf hexit
              have h2 : some files = some files' := hf
              obtain rfl := Option.some.inj h2
              simp [eslintRun, eslintAfterExec, EslintStdout.truthy, h]
  · intro targets b spawn tmpBase
    cases targets with
    | nil => simp [phpstanRun]
    | cons t ts =>
      cases b with
      | false => simp [phpstanRun]
      | true =>
        cases spawn with
        | none => simp [phpstanRun, phpstanDecoded]
        | some res =>
          cases hdec : phpJsonDecode res.stdout with
          | none => simp [phpstanRun, phpstanDecoded, hdec]
          | some j =>
            by_cases harr : j.isArrayLike = true
            · by_cases hsum : phpstanTotalErrors j + phpstanFileErrors j = 0
              · simp [phpstanRun, phpstanDecoded, hdec, phpstanAfterDecode, harr,
                  hsum]
              · refine ⟨?_, ?_, ?_⟩
                · simp [phpstanRun, hdec, phpstanAfterDecode, harr, hsum,
                    phpstanShownLines_eq, List.length_take]
                · simp [phpstanRun, hdec, phpstanAfterDecode, harr, hsum]
                · intro j' hj' hexit
                  have h2 : some j = some j' := by
                    rw [← hdec]
                    exact hj'.symm ▸ rfl
                  obtain rfl := Option.some.inj h2
                  simp [phpstanRun, hdec, phpstanAfterDecode, harr, hsum,
                    phpstanShownLines_eq]
            · simp [phpstanRun, phpstanDecoded, hdec, phpstanAfterDecode, harr]

/-- Witness for C6: a concrete failing ESLint run prints the header, the
first finding lines and the artifact pointer. -/
theorem terse_report_bounded_witness :
    (eslintRun ["src"] (.ok (.conformant [eslintFile1])) "ab12cd34").stdout =
      eslintFailHeader [eslintFile1]
        :: ((eslintFindingLines [eslintFile1]).take 3 ++
            [eslintDetailsLine "ab12cd34"]) :=
  (terse_report_bounded.1 ["src"] (.ok (.conformant [eslintFile1]))
    "ab12cd34").2.2 [eslintFile1] rfl rfl

/-- The PHPStan artifact structure for `phpstanPassDoc`: the empty
`files` array has been rewritten to an empty object. -/
def phpstanNormalizedDoc : Json :=
  .obj [(kTotals, .obj [(kErrors, .num 0), (kFileErrors, .num 0)]),
        (kFiles, .obj [])]

/-- C5 (counterexample): a PHPStan run on output whose `files` entry is
the empty array writes an artifact that does not deserialize to the
original document — `files: []` has become `files: {}`. -/
theorem phpstan_artifact_not_verbatim :
    (phpstanRun ["src"] true (some ⟨.jsonText phpstanPassDoc, "", 0⟩)
      "/tmp/phpstan-c5").artifact = some phpstanNormalizedDoc ∧
    phpstanNormalizedDoc ≠ phpstanPassDoc := by
  constructor
  · rfl
  · intro h
    have h2 : Json.lookupField phpstanNormalizedDoc kFiles =
        Json.lookupField phpstanPassDoc kFiles := by rw [h]
    rw [show Json.lookupField phpstanNormalizedDoc kFiles = some (.obj []) from rfl,
        show Json.lookupField phpstanPassDoc kFiles = some (.arr []) from rfl] at h2
    injection h2 with h3
    exact Json.noConfusion h3

/-- C5 (amended): the ESLint artifact always equals the tool's original
JSON structure; the PHPStan artifact equals the decoded payload re-encoded
through PHP associative arrays with an `empty()` `files` entry normalised
to `{}` — in particular it equals the original whenever `files` is present
and non-empty and the payload contains no empty objects. -/
theorem artifact_payload_retention_amended :
    (∀ (targets : List String) (exec : EslintExec) (suffix : String) files,
      targets ≠ [] → eslintParsed exec = some files →
      (eslintRun targets exec suffix).artifact = some (eslintResultsJson files)) ∧
    (∀ (targets : List String) (res : SpawnResult) (tmpBase : String) (j : Json),
      targets ≠ [] → phpJsonDecode res.stdout = some j → j.isArrayLike = true →
      (phpstanRun targets true (some res) tmpBase).artifact =
        some (phpstanArtifact j)) ∧
    (∀ fs : List (String × Json),
      phpEmpty (Json.lookupField (.obj fs) kFiles) = false →
      noEmptyObj (.obj fs) = true →
      phpstanArtifact (.obj fs) = .obj fs) := by
  refine ⟨?_, ?_, ?_⟩
  · intro targets exec suffix files ht hp
    cases targets with
    | nil => exact absurd rfl ht
    | cons t ts =>
      cases exec with
      | spawnErr msg => simp [eslintParsed] at hp
      | ok out =>
        cases out with
        | malformed raw => simp [eslintParsed] at hp
        | conformant fs =>
          have h2 : some fs = some files := hp
          obtain rfl := Option.some.inj h2
          by_cases h : eslintTotalErrors fs = 0 <;>
            simp [eslintRun, eslintAfterExec, h]
      | nonzero out status =>
        cases out with
        | malformed raw => simp [eslintParsed] at hp
        | conformant fs =>
          have h2 : some fs = some files := hp
          obtain rfl := Option.some.inj h2
          by_cases h : eslintTotalErrors fs = 0 <;>
            simp [eslintRun, eslintAfterExec, EslintStdout.truthy, h]
  · intro targets res tmpBase j ht hdec harr
    cases targets with
    | nil => exact absurd rfl ht
    | cons t ts =>
      by_cases h : phpstanTotalErrors j + phpstanFileErrors j = 0 <;>
        simp [phpstanRun, hdec, phpstanAfterDecode, harr, h]
  · intro fs hne hstable
    rw [noEmptyObj, Bool.and_eq_true] at hstable
    simp only [phpstanArtifact]
    rw [if_neg (by simp [hne])]
    rw [phpRoundTripFields_eq_of_noEmptyObj fs hstable.2]

/-- Witness for C5 (amended): a concrete failing ESLint run retains the
original result array in the artifact. -/
theorem artifact_payload_retention_amended_witness :
    (eslintRun ["src"] (.ok (.conformant [eslintFile1])) "ab12cd34").artifact =
      some (eslintResultsJson [eslintFile1]) :=
  artifact_payload_retention_amended.1 ["src"] (.ok (.conformant [eslintFile1]))
    "ab12cd34" [eslintFile1] (List.cons_ne_nil _ _) rfl

/-- C10 (counterexample): the JSON document `null` is syntactically valid
and lacks both totals keys, yet the run exits 2 with no stdout line and no
artifact: `json_decode` returns PHP `null` for it, indistinguishable from
a parse failure, so the run is escalated rather than classified pass. -/
theorem phpstan_valid_null_json_exits_two :
    (phpstanRun ["src"] true (some ⟨.jsonText Json.null, "", 0⟩)
      "/tmp/phpstan-c10").exit = 2 ∧
    (phpstanRun ["src"] true (some ⟨.jsonText Json.null, "", 0⟩)
      "/tmp/phpstan-c10").stdout = [] ∧
    (phpstanRun ["src"] true (some ⟨.jsonText Json.null, "", 0⟩)
      "/tmp/phpstan-c10").artifact = none :=
  ⟨rfl, rfl, rfl⟩

/-- C10 (amended): for every PHPStan run whose stdout is valid JSON
decoding to a non-null array-like value that lacks the `totals.errors`
and `totals.file_errors` keys, the counts default to 0 and the run is
classified pass: exit 0, one success line on stdout, artifact written.
The JSON document `null`, though valid and lacking the keys, is treated
as a parse failure (exit 2). -/
theorem phpstan_missing_totals_defaults_pass :
    ∀ (targets : List String) (res : SpawnResult) (tmpBase : String) (j : Json),
      targets ≠ [] → phpJsonDecode res.stdout = some j → j.isArrayLike = true →
      (Json.lookupField j kTotals).bind (fun t => Json.lookupField t kErrors) = none →
      (Json.lookupField j kTotals).bind (fun t => Json.lookupField t kFileErrors) = none →
      (phpstanRun targets true (some res) tmpBase).exit = 0 ∧
      (phpstanRun targets true (some res) tmpBase).stdout =
        [phpstanPassLine tmpBase] ∧
      (phpstanRun targets true (some res) tmpBase).artifact =
        some (phpstanArtifact j) := by
  intro targets res tmpBase j ht hdec harr he hfe
  cases targets with
  | nil => exact absurd rfl ht
  | cons t ts =>
    have hte : phpstanTotalErrors j = 0 := by
      rw [phpstanTotalErrors, phpCountField, he]
    have hfe0 : phpstanFileErrors j = 0 := by
      rw [phpstanFileErrors, phpCountField, hfe]
    simp [phpstanRun, hdec, phpstanAfterDecode, harr, hte, hfe0]

/-- Witness for C10 (amended): a concrete run on `{"files": []}` (no
totals at all) exits 0. -/
theorem phpstan_missing_totals_defaults_pass_witness :
    (phpstanRun ["src"] true
      (some ⟨.jsonText (.obj [(kFiles, .arr [])]), "", 1⟩)
      "/tmp/phpstan-w10").exit = 0 :=
  (phpstan_missing_totals_defaults_pass ["src"]
    ⟨.jsonText (.obj [(kFiles, .arr [])]), "", 1⟩ "/tmp/phpstan-w10"
    (.obj [(kFiles, .arr [])]) (List.cons_ne_nil _ _) rfl rfl rfl rfl).1

/-- C7: for every parsed JUnit log, the summary is taken verbatim from
the root suite's own aggregate attributes — whatever the (possibly
disagreeing) child cases and nested suites contain — and the fail
decision counts failures together with errors: exit 1 iff root failures +
root errors > 0 (also when the errors attribute alone is 0), exit 0 iff
that sum is zero. -/
theorem phpunit_summary_from_root_attributes :
    ∀ (targets : List String) (pr : PhpunitProc) (tmpBase : String)
      (nm : String) (fa : Option String) (t a e fl sk : Nat)
      (cs : List JunitCase) (ch : List JunitSuite) (rest : List JunitSuite),
      targets ≠ [] →
      pr.junit = .parsed (JunitSuite.mk nm fa t a e fl sk cs ch :: rest) →
      (∃ d : PhpunitData,
        (phpunitRun targets true (some pr) tmpBase).artifact = some d ∧
        d.summary = ⟨t, a, e, fl, sk⟩) ∧
      ((phpunitRun targets true (some pr) tmpBase).exit = 1 ↔ 0 < fl + e) ∧
      ((phpunitRun targets true (some pr) tmpBase).exit = 0 ↔ fl + e = 0) := by
  intro targets pr tmpBase nm fa t a e fl sk cs ch rest ht hj
  cases targets with
  | nil => exact absurd rfl ht
  | cons tg ts =>
    refine ⟨⟨{ summary := ⟨t, a, e, fl, sk⟩,
               test_suites := phpunitTestSuites
                 (JunitSuite.mk nm fa t a e fl sk cs ch :: rest) }, ?_, rfl⟩,
      ?_, ?_⟩ <;>
      by_cases hsum : fl + e = 0 <;>
        simp [phpunitRun, hj, phpunitSummary, phpunitTestSuites,
          JunitSuite.tests, JunitSuite.assertions, JunitSuite.errors,
          JunitSuite.failures, JunitSuite.skippedCount, JunitSuite.children,
          hsum, Nat.pos_iff_ne_zero] <;>
        omega

/-- A nested suite for the C7 witness whose child counts disagree with
nothing in particular; the root carries `failures="1" errors="0"`. -/
def junitInnerEx : JunitSuite :=
  .mk "CalculatorTest" (some "CalculatorTest.php") 2 2 0 1 0
    [{ name := "testAdd", className := "CalculatorTest",
       file := "CalculatorTest.php", line := 9, assertions := 1,
       failure := some { type := "AssertionFailedError",
                         message := "Failed asserting that 0 is identical to 4." },
       error := none, skipped := false },
     { name := "testSubtract", className := "CalculatorTest",
       file := "CalculatorTest.php", line := 15, assertions := 1,
       failure := none, error := none, skipped := false }] []

/-- Witness for C7: a run whose root suite reports `failures="1"
errors="0"` exits 1 — failures count toward the fail decision although
the errors attribute is 0. -/
theorem phpunit_summary_from_root_attributes_witness :
    (phpunitRun ["tests"] true
      (some ⟨"", "", 1, .parsed [.mk "All" none 2 2 0 1 0 [] [junitInnerEx]]⟩)
      "/tmp/phpunit-w7").exit = 1 :=
  ((phpunit_summary_from_root_attributes ["tests"]
      ⟨"", "", 1, .parsed [.mk "All" none 2 2 0 1 0 [] [junitInnerEx]]⟩
      "/tmp/phpunit-w7" "All" none 2 2 0 1 0 [] [junitInnerEx] []
      (List.cons_ne_nil _ _) rfl).2.1).mpr (by omega)

mutual

/-- Lemma: `parseSuite` flattens a suite subtree: its `test_cases` list is the
subtree's leaf cases in document order, each converted by
`caseResultOf`. -/
theorem parseSuite_test_cases_eq (s : JunitSuite) :
    (parseSuite s).test_cases = (leafCases s).map caseResultOf := by
  match s with
  | .mk n f t a e fl sk cs ch =>
      simp [parseSuite, leafCases, parseSuiteChildren_eq ch, List.map_append]

theorem parseSuiteChildren_eq (l : List JunitSuite) :
    parseSuiteChildren l = (leafCasesList l).map caseResultOf := by
  match l with
  | [] => simp [parseSuiteChildren, leafCasesList]
  | s :: rest =>
      simp [parseSuiteChildren, leafCasesList, parseSuite_test_cases_eq s,
        parseSuiteChildren_eq rest, List.map_append]

end

/-- C8 (amended): the adapter recursively flattens arbitrarily deep
suite/case nesting into a flat sequence of converted leaf cases in
document order; a skip marker yields skipped, otherwise an error child
yields the `'error'` status, otherwise a failure child yields failed,
otherwise passed — but each case record keeps only the case's own
name/class/file/line attributes: its identity is not qualified with the
enclosing suite path. -/
theorem phpunit_flatten_and_classify :
    (∀ s : JunitSuite,
      (parseSuite s).test_cases = (leafCases s).map caseResultOf) ∧
    (∀ tc : JunitCase, (caseResultOf tc).name = tc.name ∧
      (caseResultOf tc).className = tc.className ∧
      (caseResultOf tc).file = tc.file) ∧
    (∀ tc : JunitCase, tc.skipped = true →
      (caseResultOf tc).status = .skipped) ∧
    (∀ tc : JunitCase, tc.skipped = false → tc.error.isSome →
      (caseResultOf tc).status = .error) ∧
    (∀ tc : JunitCase, tc.skipped = false → tc.error = none →
      tc.failure.isSome → (caseResultOf tc).status = .failed) ∧
    (∀ tc : JunitCase, tc.skipped = false → tc.error = none →
      tc.failure = none → (caseResultOf tc).status = .passed) := by
  refine ⟨parseSuite_test_cases_eq, ?_, ?_, ?_, ?_, ?_⟩
  · intro tc
    exact ⟨rfl, rfl, rfl⟩
  · intro tc hsk
    simp [caseResultOf, caseStatusOf, hsk]
  · intro tc hsk he
    simp [caseResultOf, caseStatusOf, hsk, he]
  · intro tc hsk he hf
    simp [caseResultOf, caseStatusOf, hsk, he, hf]
  · intro tc hsk he hf
    simp [caseResultOf, caseStatusOf, hsk, he, hf]

/-- A concrete skipped testcase for the C8 witness. -/
def junitSkipCase : JunitCase :=
  { name := "testSkip", className := "C", file := "f", line := 1,
    assertions := 0, failure := none, error := none, skipped := true }

/-- Witness for C8 (amended): a concrete skipped case is classified
skipped. -/
theorem phpunit_flatten_and_classify_witness :
    (caseResultOf junitSkipCase).status = CaseStatus.skipped :=
  phpunit_flatten_and_classify.2.2.1 junitSkipCase rfl

/-- The leaf case of the C8 counterexample. -/
def junitLeafCase : JunitCase :=
  { name := "testX", className := "CalcTest", file := "Calc.php", line := 10,
    assertions := 1, failure := none, error := none, skipped := false }

def junitInnerSuiteEx : JunitSuite :=
  .mk "InnerSuite" none 1 1 0 0 0 [junitLeafCase] []

def junitOuterSuiteEx : JunitSuite :=
  .mk "OuterSuite" none 1 1 0 0 0 [] [junitInnerSuiteEx]

/-- C8 (counterexample): flattening a case nested inside `InnerSuite`
yields a record whose identity fields are exactly the case's own XML
attributes; the enclosing suite's name appears in none of them, so the
case's identity is not qualified with its enclosing suite path. -/
theorem phpunit_case_identity_not_suite_qualified :
    (parseSuite junitOuterSuiteEx).test_cases =
      [{ name := "testX", className := "CalcTest", file := "Calc.php",
         line := 10, assertions := 1, status := .passed,
         failure := none, error := none }] ∧
    strContainsSub "testX" "InnerSuite" = false ∧
    strContainsSub "CalcTest" "InnerSuite" = false ∧
    strContainsSub "Calc.php" "InnerSuite" = false := by
  refine ⟨?_, ?_, ?_, ?_⟩
  · simp [junitOuterSuiteEx, junitInnerSuiteEx, junitLeafCase, parseSuite,
      parseSuiteChildren, caseResultOf, caseStatusOf]
  · rfl
  · rfl
  · rfl

end QAW
